import Mathlib

/-!
Shallow embedding of the EventHub backend (Event-Management-CICD repository).

The repository contains three near-identical server variants:
  * the Hono server `src/supabase/functions/server/index.tsx` (the main one),
  * the plain Deno in-memory server (`serve(...)` handler),
  * the in-browser `MockServer` class.
All state lives in a key-value record store (prefixed string keys); we model
it as per-entity association lists where `kvSet` prepends (last write shadows
earlier ones for `kvGet`), which matches overwrite semantics of the store.
Ticket counts and quantities are modelled as `Int` (JS numbers used as
integers by all callers), prices as `Rat`.  JS truthiness on strings and
numbers is modelled explicitly (`jsOr`, `jsOrInt`, `jsOrRat`: empty string
and 0 are falsy).  `new Date(d).toISOString()` is modelled by an explicit
parameter `toIso : String → String`, and SHA-256 password hashing by a
parameter `hash : String → String`; neither transformation matters to any
claim beyond being some function.
-/

namespace EventHub

/-- The `Event` record as stored under `event:` keys.  The admin-created
events additionally carry `status`, `createdAt`, `updatedAt`; seeded sample
events leave them absent (modelled as `""`).  The JS field `type` is named
`etype` here. -/
structure Event where
  id : String
  title : String
  description : String
  dateTime : String
  location : String
  etype : String
  totalTickets : Int
  availableTickets : Int
  price : Rat
  imageUrl : String
  status : String
  createdAt : String
  updatedAt : String
deriving DecidableEq, Repr

/-- The `Booking` record as stored under `booking:` keys. -/
structure Booking where
  id : String
  userId : String
  eventId : String
  quantity : Int
  totalPrice : Rat
  bookingDate : String
  status : String
deriving DecidableEq, Repr

/-- The `User` record as stored under `user:` keys. -/
structure User where
  id : String
  email : String
  password : String
  firstName : String
  lastName : String
  isAdmin : Bool
  createdAt : String
  updatedAt : String
deriving DecidableEq, Repr

/-- The record store: one association list per key prefix
(`user:`, `user_email:`, `event:`, `booking:`, `user_booking:uid:bid`). -/
structure Store where
  users : List (String × User)
  userEmails : List (String × String)
  events : List (String × Event)
  bookings : List (String × Booking)
  userBookings : List ((String × String) × String)
deriving DecidableEq, Repr

/-- Model of `kv.get`: first binding for the key wins (later `kvSet`s shadow). -/
def kvGet {κ α : Type} [DecidableEq κ] : List (κ × α) → κ → Option α
  | [], _ => none
  | (k', v) :: rest, k => if k' = k then some v else kvGet rest k

/-- Model of `kv.set`: prepend, shadowing any earlier binding. -/
def kvSet {κ α : Type} (l : List (κ × α)) (k : κ) (v : α) : List (κ × α) :=
  (k, v) :: l

/-- JS `a || d` for an optional string (`undefined` and `""` are falsy). -/
def jsOr (o : Option String) (d : String) : String :=
  match o with
  | none => d
  | some s => if s = "" then d else s

/-- JS `a || d` for an optional integer (`undefined` and `0` are falsy). -/
def jsOrInt (o : Option Int) (d : Int) : Int :=
  match o with
  | none => d
  | some n => if n = 0 then d else n

/-- JS `a || d` for an optional number treated as a price
(`undefined` and `0` are falsy). -/
def jsOrRat (o : Option Rat) (d : Rat) : Rat :=
  match o with
  | none => d
  | some x => if x = 0 then d else x

/-- The insufficient-inventory error message built by every booking variant:
`Not enough tickets available. Only ${availableTickets} tickets left.` -/
def mkInsufficientMsg (remaining : Int) : String :=
  "Not enough tickets available. Only " ++ toString remaining ++ " tickets left."

/-- A single `kv.set` performed by a booking handler, in program order. -/
inductive KVWrite where
  | putBooking (id : String) (b : Booking)
  | putUserBooking (userId bookingId : String)
  | putEvent (id : String) (e : Event)
deriving DecidableEq, Repr

/-- Apply one write to the store. -/
def applyWrite (s : Store) : KVWrite → Store
  | .putBooking bid b => { s with bookings := kvSet s.bookings bid b }
  | .putUserBooking uid bid =>
      { s with userBookings := kvSet s.userBookings (uid, bid) bid }
  | .putEvent eid e => { s with events := kvSet s.events eid e }

/-- Apply a trace of writes in order. -/
def applyWrites (s : Store) (ws : List KVWrite) : Store :=
  ws.foldl applyWrite s

/-- Outcome of a request handler: an error with HTTP status and message, or
a successful booking payload. -/
inductive BookResult where
  | err (code : Int) (msg : String)
  | ok (b : Booking)
deriving DecidableEq, Repr

/-- Handler for `POST /make-server-1eecec3b/events/:id/book` (Hono server, after
`requireAuth` has placed `userId` in the context).  Returns the response
together with the trace of `kv.set` calls it performs, in program order:
on success the code saves `booking:` first, then `user_booking:`, then the
updated `event:`. -/
def bookHandler (s : Store) (userId eventId : String) (qty : Option Int)
    (bookingId now : String) : BookResult × List KVWrite :=
  if userId = "" then (.err 401 "User authentication failed", [])
  else if eventId = "" then (.err 400 "Event ID is required", [])
  else
    match qty with
    | none => (.err 400 "Valid quantity is required", [])
    | some q =>
      if q = 0 then (.err 400 "Valid quantity is required", [])
      else if q < 1 then (.err 400 "Valid quantity is required", [])
      else
        match kvGet s.events eventId with
        | none => (.err 404 "Event not found", [])
        | some e =>
          if e.availableTickets < q then
            (.err 400 (mkInsufficientMsg e.availableTickets), [])
          else
            let booking : Booking :=
              { id := bookingId, userId := userId, eventId := eventId,
                quantity := q, totalPrice := e.price * (q : Rat),
                bookingDate := now, status := "Confirmed" }
            let updated : Event :=
              { e with availableTickets := e.availableTickets - q }
            (.ok booking,
              [.putBooking bookingId booking,
               .putUserBooking userId bookingId,
               .putEvent eventId updated])

/-- Handler for `POST /make-server-1eecec3b/bookings` (Hono server, cart-style), after
`requireAuth`.  Accepts an optional client-supplied `totalAmount`; the
stored `totalPrice` is `totalAmount || event.price * quantity`.  Same write
order as `bookHandler`: booking, user-booking index, then event. -/
def bookingsHandler (s : Store) (userId : String) (eventId : Option String)
    (qty : Option Int) (totalAmount : Option Rat) (bookingId now : String) :
    BookResult × List KVWrite :=
  match eventId with
  | none => (.err 400 "Event ID and valid quantity are required", [])
  | some eid =>
    if eid = "" then (.err 400 "Event ID and valid quantity are required", [])
    else
      match qty with
      | none => (.err 400 "Event ID and valid quantity are required", [])
      | some q =>
        if q = 0 then (.err 400 "Event ID and valid quantity are required", [])
        else if q < 1 then (.err 400 "Event ID and valid quantity are required", [])
        else
          match kvGet s.events eid with
          | none => (.err 404 "Event not found", [])
          | some e =>
            if e.availableTickets < q then
              (.err 400 (mkInsufficientMsg e.availableTickets), [])
            else
              let booking : Booking :=
                { id := bookingId, userId := userId, eventId := eid,
                  quantity := q,
                  totalPrice := jsOrRat totalAmount (e.price * (q : Rat)),
                  bookingDate := now, status := "Confirmed" }
              let updated : Event :=
                { e with availableTickets := e.availableTickets - q }
              (.ok booking,
                [.putBooking bookingId booking,
                 .putUserBooking userId bookingId,
                 .putEvent eid updated])

/-- The `POST .../bookings` branch of the plain in-memory Deno server
(`serve(...)` handler), after token verification yields `payloadUserId`.
This variant performs the same `!eventId || !quantity || quantity < 1`
validation and `totalAmount || price * quantity` price as the Hono cart
handler, but the updated event is written BEFORE the booking, and no
user-booking index entry exists.  (`MockServer.createBooking` is modelled
separately as `mockCreateBooking`: it has no such validation.) -/
def memCreateBooking (s : Store) (payloadUserId : String)
    (eventId : Option String) (qty : Option Int) (totalAmount : Option Rat)
    (bookingId now : String) : BookResult × List KVWrite :=
  match eventId with
  | none => (.err 400 "Event ID and valid quantity are required", [])
  | some eid =>
    if eid = "" then (.err 400 "Event ID and valid quantity are required", [])
    else
      match qty with
      | none => (.err 400 "Event ID and valid quantity are required", [])
      | some q =>
        if q = 0 then (.err 400 "Event ID and valid quantity are required", [])
        else if q < 1 then (.err 400 "Event ID and valid quantity are required", [])
        else
          match kvGet s.events eid with
          | none => (.err 404 "Event not found", [])
          | some e =>
            if e.availableTickets < q then
              (.err 400 (mkInsufficientMsg e.availableTickets), [])
            else
              let booking : Booking :=
                { id := bookingId, userId := payloadUserId, eventId := eid,
                  quantity := q,
                  totalPrice := jsOrRat totalAmount (e.price * (q : Rat)),
                  bookingDate := now, status := "Confirmed" }
              let updated : Event :=
                { e with availableTickets := e.availableTickets - q }
              (.ok booking,
                [.putEvent eid updated,
                 .putBooking bookingId booking])

/-- Model of `MockServer.createBooking(token, eventId, quantity,
totalAmount?)` from the browser mock, after token verification yields
`payloadUserId`.  Unlike every other variant it performs NO eventId or
quantity validation: it only looks up the event and checks
`event.availableTickets < quantity`, so zero and negative quantities are
accepted.  Thrown errors are modelled as `err` results.  The updated event
is written before the booking; there is no user-booking index. -/
def mockCreateBooking (s : Store) (payloadUserId eventId : String)
    (qty : Int) (totalAmount : Option Rat) (bookingId now : String) :
    BookResult × List KVWrite :=
  match kvGet s.events eventId with
  | none => (.err 404 "Event not found", [])
  | some e =>
    if e.availableTickets < qty then
      (.err 400 (mkInsufficientMsg e.availableTickets), [])
    else
      let booking : Booking :=
        { id := bookingId, userId := payloadUserId, eventId := eventId,
          quantity := qty,
          totalPrice := jsOrRat totalAmount (e.price * (qty : Rat)),
          bookingDate := now, status := "Confirmed" }
      let updated : Event :=
        { e with availableTickets := e.availableTickets - qty }
      (.ok booking,
        [.putEvent eventId updated,
         .putBooking bookingId booking])

/-- The inventory invariant of an event record:
`0 <= availableTickets <= totalTickets`. -/
def eventInv (e : Event) : Prop :=
  0 ≤ e.availableTickets ∧ e.availableTickets ≤ e.totalTickets

/-- The inventory invariant holds for whatever event record (if any) is
stored under `event:eid`. -/
def eventInvAt (s : Store) (eid : String) : Prop :=
  ∀ e, kvGet s.events eid = some e → eventInv e

/-- The result of `atob` + `JSON.parse` on a token string: either the parse
throws (`malformed`), or it yields a payload `{userId, exp}`.  A payload
whose `userId` property is absent is modelled by `userId = ""` (both are
falsy under the code's `!decoded.userId` check); `exp` is an epoch
millisecond count. -/
inductive DecodedToken where
  | malformed
  | payload (userId : String) (exp : Option Int)
deriving DecidableEq, Repr

/-- Model of `verifyToken` (all three variants are identical): `null` on a
parse failure, `null` when `!decoded.userId`, `null` when `decoded.exp <
Date.now()`, otherwise `{userId}`.  An `exp` of `none` models a payload
whose `exp` property is absent or not a number: the JS comparison
`undefined < Date.now()` (or `NaN < ...`) is false, so such a token is
never treated as expired and is accepted whenever its subject id is
truthy. -/
def verifyToken (t : DecodedToken) (now : Int) : Option String :=
  match t with
  | .malformed => none
  | .payload uid exp =>
    if uid = "" then none
    else
      match exp with
      | none => some uid
      | some e => if e < now then none else some uid

/-- Model of `generateToken(userId)`: encodes `{userId, exp: Date.now() +
24h}` (a numeric expiry is always present on issued tokens). -/
def generateToken (userId : String) (now : Int) : DecodedToken :=
  .payload userId (some (now + 24 * 60 * 60 * 1000))

/-- The request-body fields of the admin create/update event endpoints;
`none` models a property absent from the JSON body. -/
structure EventFields where
  title : Option String
  description : Option String
  date : Option String
  location : Option String
  price : Option Rat
  capacity : Option Int
  category : Option String
  imageUrl : Option String
  status : Option String
deriving DecidableEq, Repr

/-- A request body with every property absent. -/
def EventFields.empty : EventFields :=
  { title := none, description := none, date := none, location := none,
    price := none, capacity := none, category := none, imageUrl := none,
    status := none }

/-- Outcome of the admin event endpoints. -/
inductive EventResult where
  | err (code : Int) (msg : String)
  | ok (e : Event)
deriving DecidableEq, Repr

/-- Handler for `POST /make-server-1eecec3b/admin/events` (and the identical branch of
the in-memory server): rejects when `!title || !date || !location ||
price === undefined`; otherwise builds the event with JS-truthy defaults
(`description || ''`, `category || 'General'`, `capacity || 100` for both
ticket counts, `imageUrl || ''`, `status || 'active'`) and stores it.
`toIso` models `new Date(date).toISOString()`. -/
def createEvent (s : Store) (f : EventFields) (eventId : String)
    (toIso : String → String) (now : String) : EventResult × Store :=
  match f.title, f.date, f.location, f.price with
  | some t, some dt, some l, some p =>
    if t = "" ∨ dt = "" ∨ l = "" then
      (.err 400 "Title, date, location, and price are required", s)
    else
      let ev : Event :=
        { id := eventId, title := t, description := jsOr f.description "",
          dateTime := toIso dt, location := l,
          etype := jsOr f.category "General",
          totalTickets := jsOrInt f.capacity 100,
          availableTickets := jsOrInt f.capacity 100,
          price := p, imageUrl := jsOr f.imageUrl "",
          status := jsOr f.status "active",
          createdAt := now, updatedAt := now }
      (.ok ev, { s with events := kvSet s.events eventId ev })
  | _, _, _, _ => (.err 400 "Title, date, location, and price are required", s)

/-- Handler for `GET /make-server-1eecec3b/events/:id`: the stored event, or 404. -/
def getEvent (s : Store) (eventId : String) : Option Event :=
  kvGet s.events eventId

/-- Handler for `PUT /make-server-1eecec3b/admin/events/:id`: 404 when the event is
absent; otherwise each field falls back to its stored value (`||` for
title/location/category/status, a `!== undefined` presence check for
description/price/capacity/imageUrl, a truthiness check for date).  When
`capacity` is supplied, `totalTickets := capacity` and `availableTickets :=
capacity - (old.totalTickets - old.availableTickets)` — a plain arithmetic
overwrite with no clamp and no error on a negative result. -/
def updateEvent (s : Store) (eventId : String) (f : EventFields)
    (toIso : String → String) (now : String) : EventResult × Store :=
  match kvGet s.events eventId with
  | none => (.err 404 "Event not found", s)
  | some e =>
    let upd : Event :=
      { id := e.id,
        title := jsOr f.title e.title,
        description := f.description.getD e.description,
        dateTime :=
          (match f.date with
           | some d => if d = "" then e.dateTime else toIso d
           | none => e.dateTime),
        location := jsOr f.location e.location,
        etype := jsOr f.category e.etype,
        totalTickets := f.capacity.getD e.totalTickets,
        availableTickets :=
          (match f.capacity with
           | some c => c - (e.totalTickets - e.availableTickets)
           | none => e.availableTickets),
        price := f.price.getD e.price,
        imageUrl := f.imageUrl.getD e.imageUrl,
        status := jsOr f.status e.status,
        createdAt := e.createdAt, updatedAt := now }
    (.ok upd, { s with events := kvSet s.events eventId upd })

/-- Outcome of the sign-up endpoint. -/
inductive SignupResult where
  | err (code : Int) (msg : String)
  | ok (u : User) (token : DecodedToken)
deriving DecidableEq, Repr

/-- Handler for `POST /make-server-1eecec3b/signup` (all variants): rejects when
`!email || !password`; rejects with the duplicate error when the
`user_email:` index already has an entry for the email — before any write;
otherwise hashes the password, stores the new `user:` record and the
`user_email:` index entry, and returns a fresh token.  `hash` models
SHA-256 hex, `newUserId` the generated UUID, `nowMs` `Date.now()`. -/
def signup (s : Store) (email password firstName lastName : Option String)
    (newUserId : String) (hash : String → String) (now : String)
    (nowMs : Int) : SignupResult × Store :=
  match email, password with
  | some e, some p =>
    if e = "" ∨ p = "" then (.err 400 "Email and password are required", s)
    else
      match kvGet s.userEmails e with
      | some _ => (.err 400 "User already exists with this email", s)
      | none =>
        let u : User :=
          { id := newUserId, email := e, password := hash p,
            firstName := jsOr firstName "", lastName := jsOr lastName "",
            isAdmin := false, createdAt := now, updatedAt := now }
        (.ok u (generateToken newUserId nowMs),
          { s with users := kvSet s.users newUserId u,
                   userEmails := kvSet s.userEmails e newUserId })
  | _, _ => (.err 400 "Email and password are required", s)

/-- Predicate that is `true` exactly on a `booking:` write. -/
def writeIsBooking : KVWrite → Bool
  | .putBooking _ _ => true
  | _ => false

/-- Predicate that is `true` exactly on an `event:` write. -/
def writeIsEvent : KVWrite → Bool
  | .putEvent _ _ => true
  | _ => false

/-- A concrete seeded event (the Jazz Night sample: 75 of 150 left). -/
def demoEvent : Event :=
  { id := "1", title := "Jazz Night at Blue Note",
    description := "An intimate evening of smooth jazz",
    dateTime := "2025-02-28T20:00:00Z", location := "Blue Note Jazz Club, NYC",
    etype := "Concert", totalTickets := 150, availableTickets := 75,
    price := 85, imageUrl := "", status := "", createdAt := "", updatedAt := "" }

/-- A store holding just the demo event. -/
def demoStore : Store :=
  { users := [], userEmails := [], events := [("1", demoEvent)],
    bookings := [], userBookings := [] }

/-- The empty store. -/
def emptyStore : Store :=
  { users := [], userEmails := [], events := [], bookings := [],
    userBookings := [] }

lemma kvGet_kvSet {κ α : Type} [DecidableEq κ] (l : List (κ × α)) (k k' : κ)
    (v : α) : kvGet (kvSet l k v) k' = if k = k' then some v else kvGet l k' :=
  rfl

/-- Core step of the inventory-invariant argument: if a store differs from
`s` only in that the event under `eid` was replaced by `e` with
`availableTickets` decremented by an accepted quantity, the per-key
invariant is preserved. -/
lemma invAt_after_dec (s : Store) (w eid : String) (e : Event) (q : Int)
    (hInv : eventInvAt s w) (hev : kvGet s.events eid = some e)
    (hq : 1 ≤ q) (hav : q ≤ e.availableTickets) (s2 : Store)
    (hs2 : s2.events
      = kvSet s.events eid { e with availableTickets := e.availableTickets - q }) :
    eventInvAt s2 w := by
  intro e' he'
  rw [hs2, kvGet_kvSet] at he'
  by_cases hw : eid = w
  · rw [if_pos hw] at he'
    obtain ⟨h1, h2⟩ := hInv e (hw ▸ hev)
    cases he'
    constructor <;> simp <;> omega
  · rw [if_neg hw] at he'
    exact hInv e' he'

lemma bookHandler_invAt (s : Store) (uid eid w : String) (qty : Option Int)
    (bid now : String) (hInv : eventInvAt s w) :
    eventInvAt (applyWrites s (bookHandler s uid eid qty bid now).2) w := by
  unfold bookHandler
  repeat' split
  all_goals try exact hInv
  exact invAt_after_dec s w eid _ _ hInv (by assumption) (by omega) (by omega)
    _ rfl

lemma bookingsHandler_invAt (s : Store) (uid : String) (eidOpt : Option String)
    (qty : Option Int) (tA : Option Rat) (bid now w : String)
    (hInv : eventInvAt s w) :
    eventInvAt (applyWrites s (bookingsHandler s uid eidOpt qty tA bid now).2)
      w := by
  unfold bookingsHandler
  repeat' split
  all_goals try exact hInv
  exact invAt_after_dec s w _ _ _ hInv (by assumption) (by omega) (by omega)
    _ rfl

lemma memCreateBooking_invAt (s : Store) (uid : String)
    (eidOpt : Option String) (qty : Option Int) (tA : Option Rat)
    (bid now w : String) (hInv : eventInvAt s w) :
    eventInvAt (applyWrites s (memCreateBooking s uid eidOpt qty tA bid now).2)
      w := by
  unfold memCreateBooking
  repeat' split
  all_goals try exact hInv
  exact invAt_after_dec s w _ _ _ hInv (by assumption) (by omega) (by omega)
    _ rfl

lemma mockCreateBooking_invAt (s : Store) (uid eid : String) (q : Int)
    (tA : Option Rat) (bid now w : String) (hq : 1 ≤ q)
    (hInv : eventInvAt s w) :
    eventInvAt (applyWrites s (mockCreateBooking s uid eid q tA bid now).2)
      w := by
  unfold mockCreateBooking
  repeat' split
  all_goals try exact hInv
  exact invAt_after_dec s w _ _ _ hInv (by assumption) hq (by omega) _ rfl

/-- A sold-to-capacity variant of the demo event: all 150 tickets left of
150. -/
def fullEvent : Event :=
  { demoEvent with availableTickets := 150 }

/-- A store holding just `fullEvent`. -/
def fullStore : Store := { emptyStore with events := [("1", fullEvent)] }

/-- Counterexample to C1 as stated: `MockServer.createBooking` performs no
quantity validation, so quantity `-1` is accepted (the availability check
`150 < -1` is false); on a full-capacity event (150 of 150) the run
succeeds and stores `availableTickets = 151 > totalTickets = 150`, breaking
the invariant for that variant. -/
theorem eventhub_C1_counterexample :
    fullEvent.availableTickets = 150 ∧ fullEvent.totalTickets = 150 ∧
    (getEvent
        (applyWrites fullStore
          (mockCreateBooking fullStore "u" "1" (-1) none "b" "t").2) "1").map
      Event.availableTickets = some 151 ∧
    (getEvent
        (applyWrites fullStore
          (mockCreateBooking fullStore "u" "1" (-1) none "b" "t").2) "1").map
      Event.totalTickets = some 150 := by
  decide

/-- Claim C1, amended: for every Event record satisfying
`0 <= availableTickets <= totalTickets`, the invariant still holds after
the Hono `POST /events/:id/book` handler, the Hono cart-style
`POST /bookings` handler, and the in-memory Deno server's `createBooking` —
for every caller, event id and integer quantity, accepted or not (these
variants reject any quantity below 1) — and after `MockServer.createBooking`
for every quantity `q >= 1`; the unvalidated `MockServer.createBooking`
accepts non-positive quantities, under which the upper bound can be
violated (see the counterexample). -/
theorem eventhub_C1 (s : Store) (uid eid w : String) (eidOpt : Option String)
    (qty : Option Int) (tA : Option Rat) (bid now : String)
    (hInv : eventInvAt s w) :
    eventInvAt (applyWrites s (bookHandler s uid eid qty bid now).2) w ∧
    eventInvAt (applyWrites s (bookingsHandler s uid eidOpt qty tA bid now).2)
      w ∧
    eventInvAt (applyWrites s (memCreateBooking s uid eidOpt qty tA bid now).2)
      w ∧
    (∀ q : Int, 1 ≤ q →
      eventInvAt (applyWrites s (mockCreateBooking s uid eid q tA bid now).2)
        w) :=
  ⟨bookHandler_invAt s uid eid w qty bid now hInv,
   bookingsHandler_invAt s uid eidOpt qty tA bid now w hInv,
   memCreateBooking_invAt s uid eidOpt qty tA bid now w hInv,
   fun q hq => mockCreateBooking_invAt s uid eid q tA bid now w hq hInv⟩

/-- Witness for C1 (amended): booking 2 tickets of the demo event (75 of
150 left) through the Hono handler and through `MockServer.createBooking`
keeps the invariant. -/
theorem eventhub_C1_witness :
    eventInvAt
      (applyWrites demoStore (bookHandler demoStore "u" "1" (some 2) "b" "t").2)
      "1" ∧
    eventInvAt
      (applyWrites demoStore
        (mockCreateBooking demoStore "u" "1" 2 none "b" "t").2)
      "1" := by
  have h : eventInvAt demoStore "1" := by
    intro e he
    have he' : e = demoEvent := by simpa [demoStore, kvGet] using he.symm
    subst he'
    refine ⟨by norm_num [demoEvent], by norm_num [demoEvent]⟩
  have hall :=
    eventhub_C1 demoStore "u" "1" "1" (some "1") (some 2) none "b" "t" h
  exact ⟨hall.1, hall.2.2.2 2 (by norm_num)⟩

/-- Claim C2: when the stored event has fewer available tickets than the
requested quantity, every booking variant fails with the
insufficient-inventory error carrying the actual remaining count in its
message, performs no write (so the Event is unchanged and no Booking and no
user-booking index entry is created). -/
theorem eventhub_C2 (s : Store) (uid eid : String) (q : Int)
    (tA : Option Rat) (bid now : String) (e : Event)
    (huid : uid ≠ "") (heid : eid ≠ "")
    (hev : kvGet s.events eid = some e)
    (hnn : 0 ≤ e.availableTickets)
    (hlt : e.availableTickets < q) :
    bookHandler s uid eid (some q) bid now
      = (.err 400 (mkInsufficientMsg e.availableTickets), []) ∧
    applyWrites s (bookHandler s uid eid (some q) bid now).2 = s ∧
    bookingsHandler s uid (some eid) (some q) tA bid now
      = (.err 400 (mkInsufficientMsg e.availableTickets), []) ∧
    applyWrites s (bookingsHandler s uid (some eid) (some q) tA bid now).2
      = s ∧
    memCreateBooking s uid (some eid) (some q) tA bid now
      = (.err 400 (mkInsufficientMsg e.availableTickets), []) ∧
    applyWrites s (memCreateBooking s uid (some eid) (some q) tA bid now).2
      = s := by
  have hq0 : ¬ q = 0 := by omega
  have hq1 : ¬ q < 1 := by omega
  refine ⟨?_, ?_, ?_, ?_, ?_, ?_⟩ <;>
    simp [bookHandler, bookingsHandler, memCreateBooking, huid, heid, hq0,
      hq1, hev, hlt, applyWrites]

/-- Witness for C2: requesting 100 tickets when 75 are left fails with the
message carrying 75 and leaves the store unchanged. -/
theorem eventhub_C2_witness :
    bookHandler demoStore "u" "1" (some 100) "b" "t"
      = (.err 400 (mkInsufficientMsg 75), []) ∧
    applyWrites demoStore (bookHandler demoStore "u" "1" (some 100) "b" "t").2
      = demoStore := by
  have h := eventhub_C2 demoStore "u" "1" 100 none "b" "t" demoEvent
    (by decide) (by decide) (by decide) (by decide) (by decide)
  exact ⟨h.1, h.2.1⟩

/-- An event with 40 tickets sold: capacity 100, available 60. -/
def capEvent : Event :=
  { id := "9", title := "Capacity Demo", description := "", dateTime := "d",
    location := "L", etype := "General", totalTickets := 100,
    availableTickets := 60, price := 10, imageUrl := "", status := "active",
    createdAt := "", updatedAt := "" }

/-- A store holding just `capEvent`. -/
def capStore : Store := { emptyStore with events := [("9", capEvent)] }

/-- Update body setting only `capacity = 150`. -/
def capTo150 : EventFields := { EventFields.empty with capacity := some 150 }

/-- Update body setting only `capacity = 30`. -/
def capTo30 : EventFields := { EventFields.empty with capacity := some 30 }

/-- Predicate that is `true` on a successful admin event endpoint response. -/
def isOkEvent : EventResult → Bool
  | .ok _ => true
  | .err _ _ => false

/-- Claim C3 (code evaluated at the failing input): raising capacity
100→150 with 40 sold indeed recomputes `availableTickets = 110`, but
lowering capacity to 30 with 40 sold succeeds and STORES
`availableTickets = -10`: the code neither fails nor clamps to 0, so a
negative count is persisted, contrary to the claim and to the spec's stated
invariant. -/
theorem eventhub_C3 :
    (getEvent (updateEvent capStore "9" capTo150 id "t").2 "9").map
        Event.availableTickets = some 110 ∧
    isOkEvent (updateEvent capStore "9" capTo30 id "t").1 = true ∧
    (getEvent (updateEvent capStore "9" capTo30 id "t").2 "9").map
        Event.availableTickets = some (-10) := by
  decide

/-- The exact response and write trace of the cart-style `POST /bookings`
handler on an accepted request. -/
lemma bookingsHandler_success (s : Store) (uid eid : String) (q : Int)
    (tA : Option Rat) (bid now : String) (e : Event)
    (heid : eid ≠ "") (hq : 1 ≤ q) (hev : kvGet s.events eid = some e)
    (hav : q ≤ e.availableTickets) :
    bookingsHandler s uid (some eid) (some q) tA bid now
      = (.ok { id := bid, userId := uid, eventId := eid, quantity := q,
               totalPrice := jsOrRat tA (e.price * (q : Rat)),
               bookingDate := now, status := "Confirmed" },
         [.putBooking bid
            { id := bid, userId := uid, eventId := eid, quantity := q,
              totalPrice := jsOrRat tA (e.price * (q : Rat)),
              bookingDate := now, status := "Confirmed" },
          .putUserBooking uid bid,
          .putEvent eid
            { e with availableTickets := e.availableTickets - q }]) := by
  have hq0 : ¬ q = 0 := by omega
  have hq1 : ¬ q < 1 := by omega
  have hlt : ¬ e.availableTickets < q := by omega
  simp [bookingsHandler, heid, hq0, hq1, hev, hlt]

/-- The exact response and write trace of `POST /events/:id/book` on an
accepted request. -/
lemma bookHandler_success (s : Store) (uid eid : String) (q : Int)
    (bid now : String) (e : Event)
    (huid : uid ≠ "") (heid : eid ≠ "") (hq : 1 ≤ q)
    (hev : kvGet s.events eid = some e)
    (hav : q ≤ e.availableTickets) :
    bookHandler s uid eid (some q) bid now
      = (.ok { id := bid, userId := uid, eventId := eid, quantity := q,
               totalPrice := e.price * (q : Rat),
               bookingDate := now, status := "Confirmed" },
         [.putBooking bid
            { id := bid, userId := uid, eventId := eid, quantity := q,
              totalPrice := e.price * (q : Rat),
              bookingDate := now, status := "Confirmed" },
          .putUserBooking uid bid,
          .putEvent eid
            { e with availableTickets := e.availableTickets - q }]) := by
  have hq0 : ¬ q = 0 := by omega
  have hq1 : ¬ q < 1 := by omega
  have hlt : ¬ e.availableTickets < q := by omega
  simp [bookHandler, huid, heid, hq0, hq1, hev, hlt]

/-- The exact response and write trace of the in-memory/MockServer
`createBooking` on an accepted request: the event write comes first. -/
lemma memCreateBooking_success (s : Store) (uid eid : String) (q : Int)
    (tA : Option Rat) (bid now : String) (e : Event)
    (heid : eid ≠ "") (hq : 1 ≤ q) (hev : kvGet s.events eid = some e)
    (hav : q ≤ e.availableTickets) :
    memCreateBooking s uid (some eid) (some q) tA bid now
      = (.ok { id := bid, userId := uid, eventId := eid, quantity := q,
               totalPrice := jsOrRat tA (e.price * (q : Rat)),
               bookingDate := now, status := "Confirmed" },
         [.putEvent eid { e with availableTickets := e.availableTickets - q },
          .putBooking bid
            { id := bid, userId := uid, eventId := eid, quantity := q,
              totalPrice := jsOrRat tA (e.price * (q : Rat)),
              bookingDate := now, status := "Confirmed" }]) := by
  have hq0 : ¬ q = 0 := by omega
  have hq1 : ¬ q < 1 := by omega
  have hlt : ¬ e.availableTickets < q := by omega
  simp [memCreateBooking, heid, hq0, hq1, hev, hlt]

/-- Claim C4: for every accepted booking, the cart-style handler and the
in-memory `createBooking` store the caller-supplied `totalAmount` as
`totalPrice` when it is present and valid (truthy, i.e. nonzero — the only
validity check the code performs), and fall back to `event.price *
quantity` when no override is supplied; the `/events/:id/book` handler has
no override parameter and always stores `event.price * quantity`. -/
theorem eventhub_C4 (s : Store) (uid eid : String) (q : Int)
    (tA : Option Rat) (bid now : String) (e : Event)
    (huid : uid ≠ "") (heid : eid ≠ "") (hq : 1 ≤ q)
    (hev : kvGet s.events eid = some e)
    (hav : q ≤ e.availableTickets) :
    (∃ b ws, bookingsHandler s uid (some eid) (some q) tA bid now
        = (.ok b, ws) ∧
      (∀ a, tA = some a → a ≠ 0 → b.totalPrice = a) ∧
      (tA = none → b.totalPrice = e.price * (q : Rat))) ∧
    (∃ b ws, bookHandler s uid eid (some q) bid now = (.ok b, ws) ∧
      b.totalPrice = e.price * (q : Rat)) ∧
    (∃ b ws, memCreateBooking s uid (some eid) (some q) tA bid now
        = (.ok b, ws) ∧
      (∀ a, tA = some a → a ≠ 0 → b.totalPrice = a) ∧
      (tA = none → b.totalPrice = e.price * (q : Rat))) := by
  refine ⟨⟨_, _, bookingsHandler_success s uid eid q tA bid now e heid hq hev
      hav, ?_, ?_⟩,
    ⟨_, _, bookHandler_success s uid eid q bid now e huid heid hq hev hav,
      rfl⟩,
    ⟨_, _, memCreateBooking_success s uid eid q tA bid now e heid hq hev hav,
      ?_, ?_⟩⟩ <;>
  · first
    | (intro a ha ha0
       subst ha
       simp [jsOrRat, ha0])
    | (intro ha
       subst ha
       simp [jsOrRat])

/-- Witness for C4: booking 3 demo tickets with no override stores
`totalPrice = 85 * 3`. -/
theorem eventhub_C4_witness :
    ∃ b ws, bookingsHandler demoStore "u" "1" (some 3) none "b" "t"
        = (.ok b, ws) ∧
      (∀ a, (none : Option Rat) = some a → a ≠ 0 → b.totalPrice = a) ∧
      ((none : Option Rat) = none
        → b.totalPrice = demoEvent.price * ((3 : Int) : Rat)) :=
  (eventhub_C4 demoStore "u" "1" 3 none "b" "t" demoEvent (by decide)
    (by decide) (by decide) (by decide) (by decide)).1

/-- Counterexample to C5 as stated: in a successful run of the Hono
`POST /events/:id/book` transaction the `booking:` record is the FIRST
write (index 0) and the updated `event:` record the LAST (index 2), so the
Event is not persisted before the Booking. -/
theorem eventhub_C5_counterexample :
    (bookHandler demoStore "u" "1" (some 1) "b" "t").2.findIdx writeIsBooking
      = 0 ∧
    (bookHandler demoStore "u" "1" (some 1) "b" "t").2.findIdx writeIsEvent
      = 2 ∧
    (bookHandler demoStore "u" "1" (some 1) "b" "t").1
      = .ok { id := "b", userId := "u", eventId := "1", quantity := 1,
              totalPrice := 85, bookingDate := "t", status := "Confirmed" } := by
  have h := bookHandler_success demoStore "u" "1" 1 "b" "t" demoEvent
    (by decide) (by decide) (by decide) (by decide) (by decide)
  rw [h]
  refine ⟨?_, ?_, ?_⟩
  · simp [List.findIdx_cons, writeIsBooking, writeIsEvent]
  · simp [List.findIdx_cons, writeIsBooking, writeIsEvent]
  · norm_num [demoEvent]

/-- Claim C5, amended: in every successful run, the in-memory/MockServer
`createBooking` persists the updated Event before the Booking (as the spec
steps say), but both Hono endpoints (`POST /events/:id/book` and
`POST /bookings`) persist the Booking record and the user-booking index
entry before the updated Event. -/
theorem eventhub_C5 (s : Store) (uid eid : String) (q : Int)
    (tA : Option Rat) (bid now : String) (e : Event)
    (huid : uid ≠ "") (heid : eid ≠ "") (hq : 1 ≤ q)
    (hev : kvGet s.events eid = some e)
    (hav : q ≤ e.availableTickets) :
    ((memCreateBooking s uid (some eid) (some q) tA bid now).2.findIdx
        writeIsEvent
      < (memCreateBooking s uid (some eid) (some q) tA bid now).2.findIdx
        writeIsBooking) ∧
    ((bookHandler s uid eid (some q) bid now).2.findIdx writeIsBooking
      < (bookHandler s uid eid (some q) bid now).2.findIdx writeIsEvent) ∧
    ((bookingsHandler s uid (some eid) (some q) tA bid now).2.findIdx
        writeIsBooking
      < (bookingsHandler s uid (some eid) (some q) tA bid now).2.findIdx
        writeIsEvent) := by
  rw [memCreateBooking_success s uid eid q tA bid now e heid hq hev hav,
    bookHandler_success s uid eid q bid now e huid heid hq hev hav,
    bookingsHandler_success s uid eid q tA bid now e heid hq hev hav]
  refine ⟨?_, ?_, ?_⟩ <;>
    simp [List.findIdx_cons, writeIsBooking, writeIsEvent]

/-- Witness for C5 (amended): the write orders on a concrete accepted
booking of 2 demo tickets. -/
theorem eventhub_C5_witness :
    ((memCreateBooking demoStore "u" "1" (some 2) none "b" "t").2.findIdx
        writeIsEvent
      < (memCreateBooking demoStore "u" "1" (some 2) none "b" "t").2.findIdx
        writeIsBooking) ∧
    ((bookHandler demoStore "u" "1" (some 2) "b" "t").2.findIdx writeIsBooking
      < (bookHandler demoStore "u" "1" (some 2) "b" "t").2.findIdx
        writeIsEvent) ∧
    ((bookingsHandler demoStore "u" (some "1") (some 2) none "b" "t").2.findIdx
        writeIsBooking
      < (bookingsHandler demoStore "u" (some "1") (some 2) none "b" "t").2.findIdx
        writeIsEvent) :=
  eventhub_C5 demoStore "u" "1" 2 none "b" "t" demoEvent (by decide)
    (by decide) (by decide) (by decide) (by decide)

/-- The event record built by `createEvent` from accepted fields. -/
def mkEvent (f : EventFields) (eventId : String) (toIso : String → String)
    (now t dt l : String) (p : Rat) : Event :=
  { id := eventId, title := t, description := jsOr f.description "",
    dateTime := toIso dt, location := l, etype := jsOr f.category "General",
    totalTickets := jsOrInt f.capacity 100,
    availableTickets := jsOrInt f.capacity 100, price := p,
    imageUrl := jsOr f.imageUrl "", status := jsOr f.status "active",
    createdAt := now, updatedAt := now }

/-- Evaluation of `createEvent` on a body whose required fields are present and truthy
stores and returns exactly `mkEvent`. -/
lemma createEvent_success (s : Store) (f : EventFields)
    (eventId now : String) (toIso : String → String) (t dt l : String)
    (p : Rat) (ht : f.title = some t) (ht0 : t ≠ "") (hd : f.date = some dt)
    (hd0 : dt ≠ "") (hl : f.location = some l) (hl0 : l ≠ "")
    (hp : f.price = some p) :
    createEvent s f eventId toIso now
      = (.ok (mkEvent f eventId toIso now t dt l p),
         { s with
             events := kvSet s.events eventId (mkEvent f eventId toIso now t dt l p) }) := by
  simp [createEvent, mkEvent, ht, hd, hl, hp, ht0, hd0, hl0]

/-- Claim C6: `createEvent` then `getEvent` on the new id returns an Event
whose fields equal the input with defaults applied (description `""`,
category `"General"`, capacity 100, status `"active"` when omitted) and
`availableTickets = totalTickets`; and `createEvent` fails with the
validation error when any required field (title, date, location, price) is
missing from the body. -/
theorem eventhub_C6 (s : Store) (f : EventFields) (eventId now : String)
    (toIso : String → String) :
    (∀ t dt l p, f.title = some t → t ≠ "" → f.date = some dt → dt ≠ "" →
      f.location = some l → l ≠ "" → f.price = some p →
      ∃ ev s2, createEvent s f eventId toIso now = (.ok ev, s2) ∧
        getEvent s2 eventId = some ev ∧
        ev.title = t ∧ ev.dateTime = toIso dt ∧ ev.location = l ∧
        ev.price = p ∧ ev.availableTickets = ev.totalTickets ∧
        (f.description = none → ev.description = "") ∧
        (f.category = none → ev.etype = "General") ∧
        (f.capacity = none → ev.totalTickets = 100) ∧
        (f.status = none → ev.status = "active")) ∧
    ((f.title = none ∨ f.date = none ∨ f.location = none ∨ f.price = none) →
      createEvent s f eventId toIso now
        = (.err 400 "Title, date, location, and price are required", s)) := by
  constructor
  · intro t dt l p ht ht0 hd hd0 hl hl0 hp
    refine ⟨_, _,
      createEvent_success s f eventId now toIso t dt l p ht ht0 hd hd0 hl hl0
        hp, ?_, rfl, rfl, rfl, rfl, rfl, ?_, ?_, ?_, ?_⟩
    · simp [getEvent, kvGet_kvSet]
    · intro h
      simp [mkEvent, jsOr, h]
    · intro h
      simp [mkEvent, jsOr, h]
    · intro h
      simp [mkEvent, jsOrInt, h]
    · intro h
      simp [mkEvent, jsOr, h]
  · intro h
    rcases hT : f.title with _ | t <;> rcases hD : f.date with _ | dt <;>
      rcases hL : f.location with _ | l <;> rcases hP : f.price with _ | p <;>
      simp_all [createEvent]

/-- A create-event body with title, date, location and price supplied and
every optional field omitted. -/
def c6Fields : EventFields :=
  { EventFields.empty with
      title := some "A"
      date := some "d"
      location := some "L"
      price := some 10 }

/-- Witness for C6: creating from `c6Fields` and reading the id back gives
the defaulted event with `availableTickets = totalTickets`. -/
theorem eventhub_C6_witness :
    ∃ ev s2, createEvent emptyStore c6Fields "e1" id "t" = (.ok ev, s2) ∧
      getEvent s2 "e1" = some ev ∧
      ev.title = "A" ∧ ev.dateTime = id "d" ∧ ev.location = "L" ∧
      ev.price = 10 ∧ ev.availableTickets = ev.totalTickets ∧
      (c6Fields.description = none → ev.description = "") ∧
      (c6Fields.category = none → ev.etype = "General") ∧
      (c6Fields.capacity = none → ev.totalTickets = 100) ∧
      (c6Fields.status = none → ev.status = "active") :=
  (eventhub_C6 emptyStore c6Fields "e1" "t" id).1 "A" "d" "L" 10 rfl
    (by decide) rfl (by decide) rfl (by decide) rfl

/-- Counterexample to C7 as stated: a token whose numeric expiry EQUALS the
current time is accepted (the code only rejects `exp < now`), although its
expiry is not strictly greater than the current time; and a decodable
payload with a subject id but NO expiry property (e.g.
`btoa('{"userId":"u"}')`) is accepted at an arbitrarily late time, because
`undefined < Date.now()` is false. -/
theorem eventhub_C7_counterexample :
    verifyToken (.payload "u" (some 5)) 5 = some "u" ∧ ¬ (5 : Int) > 5 ∧
    verifyToken (.payload "u" none) 1000000000000000 = some "u" := by
  decide

/-- Claim C7, amended: `verifyToken` returns the subject id exactly when
the input decodes to a payload carrying a (truthy) subject id whose `exp`
is either a number greater than OR EQUAL TO the current time, or absent /
not a number (such a payload is accepted forever, since `undefined <
Date.now()` is false); it returns `none` on input that fails to decode, on
a missing subject id, or on a numeric expiry in the past; a token issued
by `generateToken` always carries the numeric expiry `issuedAt + 24h` and
is accepted while `now ≤ issuedAt + 24h` and rejected after. -/
theorem eventhub_C7 :
    (∀ t now uid, verifyToken t now = some uid ↔
      ((∃ e, t = .payload uid (some e) ∧ uid ≠ "" ∧ now ≤ e) ∨
       (t = .payload uid none ∧ uid ≠ ""))) ∧
    (∀ uid issued now : _, uid ≠ "" →
      (verifyToken (generateToken uid issued) now = some uid ↔
        now ≤ issued + 24 * 60 * 60 * 1000)) ∧
    (∀ now, verifyToken .malformed now = none) := by
  refine ⟨?_, ?_, fun now => rfl⟩
  · intro t now uid
    cases t with
    | malformed => simp [verifyToken]
    | payload u oe =>
      cases oe with
      | none =>
        simp only [verifyToken]
        by_cases hu : u = ""
        · subst hu
          simp
          exact fun h => h.symm
        · rw [if_neg hu]
          constructor
          · intro h
            have hu2 : u = uid := by simpa using h
            subst hu2
            exact Or.inr ⟨rfl, hu⟩
          · rintro (⟨e2, he2, -, -⟩ | ⟨he2, -⟩)
            · simp at he2
            · simp only [DecodedToken.payload.injEq] at he2
              obtain ⟨rfl, -⟩ := he2
              rfl
      | some e =>
        simp only [verifyToken]
        constructor
        · intro h
          split_ifs at h with h1 h2
          have hu : u = uid := by simpa using h
          subst hu
          exact Or.inl ⟨e, rfl, h1, by omega⟩
        · rintro (⟨e2, he2, hu, hn⟩ | ⟨he2, -⟩)
          · simp only [DecodedToken.payload.injEq, Option.some.injEq] at he2
            obtain ⟨rfl, rfl⟩ := he2
            rw [if_neg hu, if_neg (by omega)]
          · simp at he2
  · intro uid issued now hu
    simp only [generateToken, verifyToken]
    rw [if_neg hu]
    split_ifs with h <;> simp <;> omega

/-- Witness for C7 (amended): a token issued at time 0 is still accepted at
exactly its expiry, 86400000. -/
theorem eventhub_C7_witness :
    verifyToken (generateToken "u" 0) 86400000 = some "u" ↔
      (86400000 : Int) ≤ 0 + 24 * 60 * 60 * 1000 :=
  eventhub_C7.2.1 "u" 0 86400000 (by decide)

/-- Claim C8: when the email index already has an entry for email `e`
(i.e. a user with that email is registered), sign-up with `e` and any
password fails with the duplicate error and returns the store unchanged —
so the existing account's record (and password digest) is untouched and no
new User record or email-index entry is created. -/
theorem eventhub_C8 (s : Store) (e p : String) (fn ln : Option String)
    (newUid : String) (hash : String → String) (now : String) (nowMs : Int)
    (uid0 : String) (he : e ≠ "") (hp : p ≠ "")
    (hdup : kvGet s.userEmails e = some uid0) :
    signup s (some e) (some p) fn ln newUid hash now nowMs
      = (.err 400 "User already exists with this email", s) ∧
    (signup s (some e) (some p) fn ln newUid hash now nowMs).2.users
      = s.users ∧
    (signup s (some e) (some p) fn ln newUid hash now nowMs).2.userEmails
      = s.userEmails := by
  refine ⟨?_, ?_, ?_⟩ <;> simp [signup, he, hp, hdup]

/-- A store whose email index already maps `a@b.c` to user `u0`. -/
def dupStore : Store := { emptyStore with userEmails := [("a@b.c", "u0")] }

/-- Witness for C8: signing up with the already-registered `a@b.c` fails
with the duplicate error and leaves `dupStore` unchanged. -/
theorem eventhub_C8_witness :
    signup dupStore (some "a@b.c") (some "pw") none none "nu" id "t" 0
      = (.err 400 "User already exists with this email", dupStore) ∧
    (signup dupStore (some "a@b.c") (some "pw") none none "nu" id "t" 0).2.users
      = dupStore.users ∧
    (signup dupStore (some "a@b.c") (some "pw") none none "nu" id "t"
        0).2.userEmails
      = dupStore.userEmails :=
  eventhub_C8 dupStore "a@b.c" "pw" none none "nu" id "t" 0 "u0" (by decide)
    (by decide) (by decide)

/-- Claim C9 (implicit override semantics): in the cart-style handlers a
caller-supplied `totalAmount` of 0 (falsy) is ignored and `totalPrice`
falls back to `event.price * quantity`, while every nonzero (truthy)
`totalAmount` — of any magnitude, with no validation against
`price * quantity` — is stored as `totalPrice`. -/
theorem eventhub_C9 (s : Store) (uid eid : String) (q : Int)
    (bid now : String) (e : Event)
    (heid : eid ≠ "") (hq : 1 ≤ q) (hev : kvGet s.events eid = some e)
    (hav : q ≤ e.availableTickets) :
    (∃ b ws, bookingsHandler s uid (some eid) (some q) (some 0) bid now
        = (.ok b, ws) ∧ b.totalPrice = e.price * (q : Rat)) ∧
    (∀ a : Rat, a ≠ 0 →
      ∃ b ws, bookingsHandler s uid (some eid) (some q) (some a) bid now
        = (.ok b, ws) ∧ b.totalPrice = a) ∧
    (∃ b ws, memCreateBooking s uid (some eid) (some q) (some 0) bid now
        = (.ok b, ws) ∧ b.totalPrice = e.price * (q : Rat)) ∧
    (∀ a : Rat, a ≠ 0 →
      ∃ b ws, memCreateBooking s uid (some eid) (some q) (some a) bid now
        = (.ok b, ws) ∧ b.totalPrice = a) :=
  ⟨⟨_, _, bookingsHandler_success s uid eid q (some 0) bid now e heid hq hev
      hav, by simp [jsOrRat]⟩,
   fun a ha0 => ⟨_, _, bookingsHandler_success s uid eid q (some a) bid now e
      heid hq hev hav, by simp [jsOrRat, ha0]⟩,
   ⟨_, _, memCreateBooking_success s uid eid q (some 0) bid now e heid hq hev
      hav, by simp [jsOrRat]⟩,
   fun a ha0 => ⟨_, _, memCreateBooking_success s uid eid q (some a) bid now e
      heid hq hev hav, by simp [jsOrRat, ha0]⟩⟩

/-- Witness for C9: an override of 999999 on a 2-ticket, 85-per-ticket
booking is stored verbatim as `totalPrice`. -/
theorem eventhub_C9_witness :
    ∃ b ws, bookingsHandler demoStore "u" "1" (some 2) (some 999999) "b" "t"
      = (.ok b, ws) ∧ b.totalPrice = 999999 := by
  have h := eventhub_C9 demoStore "u" "1" 2 "b" "t" demoEvent (by decide)
    (by decide) (by decide) (by decide)
  exact h.2.1 999999 (by norm_num)

/-- Claim C10 (implicit defaulting semantics): `createEvent` treats a
supplied capacity of 0 like a missing capacity (JS `capacity || 100`),
producing `totalTickets = availableTickets = 100`, whereas a supplied
price of 0 is accepted as-is because the required-field check only rejects
a price that is strictly `undefined`. -/
theorem eventhub_C10 (s : Store) (f : EventFields) (eventId now : String)
    (toIso : String → String) (t dt l : String)
    (ht : f.title = some t) (ht0 : t ≠ "") (hd : f.date = some dt)
    (hd0 : dt ≠ "") (hl : f.location = some l) (hl0 : l ≠ "") :
    (∀ p, f.price = some p → f.capacity = some 0 →
      ∃ ev s2, createEvent s f eventId toIso now = (.ok ev, s2) ∧
        ev.totalTickets = 100 ∧ ev.availableTickets = 100) ∧
    (f.price = some 0 →
      ∃ ev s2, createEvent s f eventId toIso now = (.ok ev, s2) ∧
        ev.price = 0) := by
  constructor
  · intro p hp hc
    exact ⟨_, _,
      createEvent_success s f eventId now toIso t dt l p ht ht0 hd hd0 hl hl0
        hp,
      by simp [mkEvent, jsOrInt, hc], by simp [mkEvent, jsOrInt, hc]⟩
  · intro hp
    exact ⟨_, _,
      createEvent_success s f eventId now toIso t dt l 0 ht ht0 hd hd0 hl hl0
        hp, rfl⟩

/-- A create-event body with capacity 0 and price 0 supplied. -/
def c10Fields : EventFields :=
  { EventFields.empty with
      title := some "A"
      date := some "d"
      location := some "L"
      price := some 0
      capacity := some 0 }

/-- Witness for C10: capacity 0 yields a 100/100 event. -/
theorem eventhub_C10_witness :
    ∃ ev s2, createEvent emptyStore c10Fields "e2" id "t" = (.ok ev, s2) ∧
      ev.totalTickets = 100 ∧ ev.availableTickets = 100 := by
  have h := eventhub_C10 emptyStore c10Fields "e2" "t" id "A" "d" "L" rfl
    (by decide) rfl (by decide) rfl (by decide)
  exact h.1 0 rfl rfl

end EventHub
